import Mathlib

/-!
Verification development for the Adafruit TSL2561 luminosity sensor driver.

The repository holds two copies of the driver implementation file
(Adafruit_TSL2561.cpp and Adafruit_TSL2561_U.cpp); they agree on every
routine modelled below except init, whose device-identity probe differs
between the two copies, so init is embedded twice (init_v0 for the first
copy, init_v1 for the second).  All arithmetic is C unsigned arithmetic:
uint16_t inputs, unsigned long (32-bit) intermediates, modelled on Nat
with explicit reduction modulo 2^32 wherever the C type is 32 bits wide.
-/

namespace TSL2561

/-- Integration time enumeration (tsl2561IntegrationTime_t).  The source
encodes the three values as 0x00, 0x01, 0x02; every switch on it has cases
for 13 ms and 101 ms and a default arm taken by 402 ms, which the three
constructor inductive reproduces exactly. -/
inductive IntegrationTime
| it13ms
| it101ms
| it402ms
deriving DecidableEq, Repr

/-- Gain enumeration (tsl2561Gain_t).  The source encodes 1x as 0x00 and
16x as 0x10, so the C test (!_tsl2561Gain) is exactly (gain = gain1x). -/
inductive Gain
| gain1x
| gain16x
deriving DecidableEq, Repr

/-- Package variant: the preprocessor symbol TSL2561_PACKAGE_CS selects the
CS coefficient table, otherwise the T/FN/CL table is compiled in. -/
inductive Package
| cs
| t
deriving DecidableEq, Repr

/-- The modulus of the 32-bit unsigned long arithmetic used throughout. -/
def U32 : ℕ := 2 ^ 32

/-- C unsigned 32-bit subtraction: (a - b) reduced modulo 2^32. -/
def sub32 (a b : ℕ) : ℕ := (a % U32 + (U32 - b % U32)) % U32

/-- Modelled from the spec: the header Adafruit_TSL2561_U.h defining the
fixed-point shift constants is not among the provided source files.  The
spec describes a fixed-point pipeline with a channel scale shift
(FIXED_SHIFT), a ratio shift (RATIO_SHIFT) and a lux scale (LUXSCALE);
the values below are the published firmware-vendor constants the spec
refers to (TSL2561_LUX_CHSCALE = 10). -/
def TSL2561_LUX_CHSCALE : ℕ := 10

/-- Modelled from the spec: ratio shift constant from the missing header
(TSL2561_LUX_RATIOSCALE = 9); 2^9 is the fixed-point representation of a
channel ratio of 1.0. -/
def TSL2561_LUX_RATIOSCALE : ℕ := 9

/-- Modelled from the spec: lux fixed-point scale from the missing header
(TSL2561_LUX_LUXSCALE = 14); the half-unit rounding bias is
1 <<< (TSL2561_LUX_LUXSCALE - 1). -/
def TSL2561_LUX_LUXSCALE : ℕ := 14

/-- Modelled from the spec: the three integration-time clipping thresholds
are fixed constants in the missing header; these are the published values
(4900, 37000, 65000) for 13 ms, 101 ms and 402 ms. -/
def clipThreshold : IntegrationTime → ℕ
| .it13ms => 4900
| .it101ms => 37000
| .it402ms => 65000

/-- Modelled from the spec: channel scale factors per integration time from
the missing header; TSL2561_LUX_CHSCALE_TINT0 = 0x7517 for 13 ms,
TSL2561_LUX_CHSCALE_TINT1 = 0x0FE7 for 101 ms, and 1 <<< 10 (no scaling)
for 402 ms, exactly as the switch in calculateLux selects them. -/
def chScaleOfTime : IntegrationTime → ℕ
| .it13ms => 0x7517
| .it101ms => 0x0FE7
| .it402ms => 1 <<< TSL2561_LUX_CHSCALE

/-- Channel scale after the gain compensation: the source shifts the scale
left by 4 when the gain is 1x (the C test is (!_tsl2561Gain), and
TSL2561_GAIN_1X is 0x00).  Shared verbatim by calculateLux and
calculateRawCH0, which duplicate the same switch plus gain test. -/
def chScaleOf (it : IntegrationTime) (g : Gain) : ℕ :=
  let c := chScaleOfTime it
  if g = Gain.gain1x then (c <<< 4) % U32 else c

/-- Channel scaling from calculateLux:
channelN = (raw * chScale) >> TSL2561_LUX_CHSCALE, with the product taken
in 32-bit unsigned arithmetic. -/
def scaledChannel (chScale raw : ℕ) : ℕ :=
  ((raw * chScale) % U32) >>> TSL2561_LUX_CHSCALE

/-- Ratio computation from calculateLux: ratio1 is the integer quotient
(channel1 << (TSL2561_LUX_RATIOSCALE+1)) / channel0, left at 0 when
channel0 is 0, and the returned ratio is the half-up rounding
(ratio1 + 1) >> 1. -/
def ratioOf (channel0 channel1 : ℕ) : ℕ :=
  let ratio1 : ℕ :=
    if channel0 ≠ 0 then
      ((channel1 <<< (TSL2561_LUX_RATIOSCALE + 1)) % U32) / channel0
    else 0
  ((ratio1 + 1) % U32) >>> 1

/-- Modelled from the spec: the 8-branch coefficient selection of
calculateLux, with the breakpoint (K), intercept (B) and slope (M)
constants taken from the missing header; they are the published
firmware-vendor table the spec refers to.  The chain is embedded branch
for branch: the first branch also carries the always-true (ratio >= 0)
test, and the last branch is guarded by (ratio > K8); when no branch fires
the C variables b and m stay unassigned, which is returned as none. -/
def selectCoeffs (pkg : Package) (ratio : ℕ) : Option (ℕ × ℕ) :=
  match pkg with
  | .cs =>
    if 0 ≤ ratio ∧ ratio ≤ 0x0043 then some (0x0204, 0x01ad)
    else if ratio ≤ 0x0085 then some (0x0228, 0x02c1)
    else if ratio ≤ 0x00c8 then some (0x0253, 0x0363)
    else if ratio ≤ 0x010a then some (0x0282, 0x03df)
    else if ratio ≤ 0x014d then some (0x0177, 0x01dd)
    else if ratio ≤ 0x019a then some (0x0101, 0x0127)
    else if ratio ≤ 0x029a then some (0x0037, 0x002b)
    else if ratio > 0x029a then some (0x0000, 0x0000)
    else none
  | .t =>
    if 0 ≤ ratio ∧ ratio ≤ 0x0040 then some (0x01f2, 0x01be)
    else if ratio ≤ 0x0080 then some (0x0214, 0x02d1)
    else if ratio ≤ 0x00c0 then some (0x023f, 0x037b)
    else if ratio ≤ 0x0100 then some (0x0270, 0x03fe)
    else if ratio ≤ 0x0138 then some (0x016f, 0x01fc)
    else if ratio ≤ 0x019a then some (0x00d2, 0x00fb)
    else if ratio ≤ 0x029a then some (0x0018, 0x0012)
    else if ratio > 0x029a then some (0x0000, 0x0000)
    else none

/-- The lux conversion calculateLux(broadband, ir), parameterised by the
configuration it reads (_tsl2561IntegrationTime, _tsl2561Gain) and the
compile-time package selection.  Identical in both repository copies.
Note that temp is an unsigned long in the source, so the difference
(channel0*b - channel1*m) wraps modulo 2^32 and the subsequent
(temp < 0) test can never be true; both facts are embedded verbatim. -/
def calculateLux (pkg : Package) (it : IntegrationTime) (g : Gain)
    (broadband ir : ℕ) : ℕ :=
  if broadband > clipThreshold it ∨ ir > clipThreshold it then 65536
  else
    let chScale := chScaleOf it g
    let channel0 := scaledChannel chScale broadband
    let channel1 := scaledChannel chScale ir
    let ratio := ratioOf channel0 channel1
    let bm := (selectCoeffs pkg ratio).getD (0, 0)
    let temp := sub32 ((channel0 * bm.1) % U32) ((channel1 * bm.2) % U32)
    let temp := if temp < 0 then 0 else temp
    let temp := (temp + (1 <<< (TSL2561_LUX_LUXSCALE - 1))) % U32
    temp >>> TSL2561_LUX_LUXSCALE

/-- The mutable configuration fields of Adafruit_TSL2561_Unified that the
modelled routines read or write (_tsl2561Initialised, _tsl2561AutoGain,
_tsl2561IntegrationTime, _tsl2561Gain). -/
structure SensorState where
  initialized : Bool
  autoGain : Bool
  integrationTime : IntegrationTime
  gain : Gain
deriving DecidableEq, Repr

/-- The state the constructor builds: not initialised, auto-gain off,
13 ms integration time, gain 1x. -/
def initialState : SensorState :=
  { initialized := false, autoGain := false,
    integrationTime := IntegrationTime.it13ms, gain := Gain.gain1x }

/-- Modelled from the spec: auto-gain high thresholds per integration time
(TSL2561_AGC_THI_13MS etc.) live in the missing header; these are the
published values 4850, 36000, 63000. -/
def agcHi : IntegrationTime → ℕ
| .it13ms => 4850
| .it101ms => 36000
| .it402ms => 63000

/-- Modelled from the spec: auto-gain low thresholds per integration time
(TSL2561_AGC_TLO_13MS etc.) from the missing header; published values
100, 200, 500. -/
def agcLo : IntegrationTime → ℕ
| .it13ms => 100
| .it101ms => 200
| .it402ms => 500

/-- Initialisation routine of the first repository copy
(Adafruit_TSL2561.cpp): the device-identity probe fails exactly when
(x & 0x0A) is zero.  On success it sets _tsl2561Initialised and replays
setIntegrationTime and setGain with the current placeholder values, which
leaves the modelled state fields unchanged.  The idByte argument stands
for the value the transport returns for read8(TSL2561_REGISTER_ID). -/
def init_v0 (idByte : ℕ) (st : SensorState) : Bool × SensorState :=
  if idByte &&& 0x0A = 0 then (false, st)
  else (true, { st with initialized := true })

/-- Initialisation routine of the second repository copy
(Adafruit_TSL2561_U.cpp): the probe fails exactly when (x & 0x05) is
nonzero; otherwise as in init_v0. -/
def init_v1 (idByte : ℕ) (st : SensorState) : Bool × SensorState :=
  if idByte &&& 0x05 ≠ 0 then (false, st)
  else (true, { st with initialized := true })

/-- begin(): sets up the I2C bus handle and delegates to init.  The second
copy is taken as the reference implementation for routines that call
begin internally. -/
def beginFn (idByte : ℕ) (st : SensorState) : Bool × SensorState :=
  init_v1 idByte st

/-- setIntegrationTime(time): calls begin() first when not initialised,
then writes the timing register and stores the new time.  The returned
Bool records whether begin was invoked. -/
def setIntegrationTime (idByte : ℕ) (st : SensorState)
    (time : IntegrationTime) : SensorState × Bool :=
  let (st, calledBegin) :=
    if st.initialized = false then ((beginFn idByte st).2, true)
    else (st, false)
  ({ st with integrationTime := time }, calledBegin)

/-- setGain(gain): calls begin() first when not initialised, then writes
the timing register and stores the new gain.  The returned Bool records
whether begin was invoked. -/
def setGain (idByte : ℕ) (st : SensorState) (g : Gain) :
    SensorState × Bool :=
  let (st, calledBegin) :=
    if st.initialized = false then ((beginFn idByte st).2, true)
    else (st, false)
  ({ st with gain := g }, calledBegin)

/-- enableAutoRange(enable): stores the auto-gain flag.  The source has no
initialisation check here (in either repository copy), so the begin-call
indicator is constantly false. -/
def enableAutoRange (st : SensorState) (en : Bool) : SensorState × Bool :=
  ({ st with autoGain := en }, false)

/-- One transport: acquisition k of a run returns the 16-bit channel pair
stream k = (broadband, ir).  Each getData call consumes the next index. -/
def Stream16 : Type := ℕ → ℕ × ℕ

/-- The do-while body of getLuminosity under auto-gain, recursing on fuel
so the loop is total in the embedding; the source loop repeats while the
valid flag is unset.  Arguments: agcCheck is the _agcCheck flag, n is the
index of the next acquisition (also the count of getData calls so far).
Each iteration re-reads the thresholds for the current integration time,
performs getData, and either accepts the reading (some), or switches gain
and performs the discarded getData of the adjustment branch before
looping.  setGain inside the branch only updates the gain placeholder in
this model; its register writes and possible begin() call touch no
modelled field and perform no channel acquisition. -/
def agcLoop : ℕ → Bool → SensorState → Stream16 → ℕ →
    Option ((ℕ × ℕ) × SensorState × ℕ)
| 0, _, _, _, _ => none
| fuel + 1, agcCheck, st, stream, n =>
  let hi := agcHi st.integrationTime
  let lo := agcLo st.integrationTime
  let r := stream n
  if agcCheck = false then
    if r.1 < lo ∧ st.gain = Gain.gain1x then
      agcLoop fuel true { st with gain := Gain.gain16x } stream (n + 2)
    else if r.1 > hi ∧ st.gain = Gain.gain16x then
      agcLoop fuel true { st with gain := Gain.gain1x } stream (n + 2)
    else some (r, st, n + 1)
  else some (r, st, n + 1)

/-- getLuminosity(broadband, ir): with auto-gain disabled, a single
getData call whose result is returned unconditionally; with auto-gain
enabled, the bounded adjustment loop.  The initial begin() call on an
uninitialised sensor performs configuration I2C traffic only — it reads
no channel data and leaves every field this routine depends on unchanged
— so it does not appear in the acquisition model.  The result carries the
accepted reading, the final state, and the number of getData calls. -/
def getLuminosity (fuel : ℕ) (st : SensorState) (stream : Stream16) :
    Option ((ℕ × ℕ) × SensorState × ℕ) :=
  if st.autoGain = false then some (stream 0, st, 1)
  else agcLoop fuel false st stream 0

/-- The first-iteration adjustment condition of the auto-gain loop: the
broadband reading is below the low threshold at gain 1x, or above the
high threshold at gain 16x. -/
def adjustCond (st : SensorState) (b : ℕ) : Prop :=
  (b < agcLo st.integrationTime ∧ st.gain = Gain.gain1x) ∨
  (agcHi st.integrationTime < b ∧ st.gain = Gain.gain16x)

instance (st : SensorState) (b : ℕ) : Decidable (adjustCond st b) := by
  unfold adjustCond; infer_instance

/-- calculateRawCH0(lux, approxChRatio), the heuristic inversion of the
lux formula.  The float arithmetic of the source is embedded over ℚ with
the decimal literals read exactly; the C pow(x, 1.4) call is abstracted
as an argument powA, since its value never feeds the branches the claims
exercise.  In the CS build the source computes the divisor but never
assigns ch0Scale (the assignment sits only in the T/FN/CL preprocessor
branch), so ch0Scale keeps its initialiser 0 there; embedded verbatim.
The cast (unsigned long)(luxScale / divisor) truncates toward zero on a
nonnegative quotient, modelled as the floor taken to ℕ modulo 2^32. -/
def calculateRawCH0 (pkg : Package) (powA : ℚ → ℚ → ℚ)
    (it : IntegrationTime) (g : Gain) (lux : ℕ) (approxChRatio : ℚ) : ℕ :=
  let luxScale : ℕ := (lux <<< TSL2561_LUX_CHSCALE) % U32
  match pkg with
  | .cs =>
    if approxChRatio > 13/10 then 0xFFFF
    else
      let _divisor : ℚ :=
        if approxChRatio > 8/10 then 338/100000 - 260/100000 * approxChRatio
        else if approxChRatio > 65/100 then 157/10000 - 180/10000 * approxChRatio
        else if approxChRatio > 52/100 then 229/10000 - 291/10000 * approxChRatio
        else 315/10000 - 593/10000 * powA approxChRatio (14/10)
      let ch0Scale : ℕ := 0
      ch0Scale / chScaleOf it g
  | .t =>
    if approxChRatio > 13/10 then 0xFFFF
    else
      let divisor : ℚ :=
        if approxChRatio > 8/10 then 146/100000 - 112/100000 * approxChRatio
        else if approxChRatio > 61/100 then 128/10000 - 153/10000 * approxChRatio
        else if approxChRatio > 1/2 then 224/10000 - 31/1000 * approxChRatio
        else 304/10000 - 62/1000 * powA approxChRatio (14/10)
      if divisor > 0 then
        ((Int.toNat ⌊(luxScale : ℚ) / divisor⌋) % U32) / chScaleOf it g
      else 0xFFFF

/-- The coefficient table of a package as the ordered list of
(K, B, M) breakpoint triples, least breakpoint first. -/
def coeffTable (pkg : Package) : List (ℕ × ℕ × ℕ) :=
  match pkg with
  | .cs =>
    [(0x0043, 0x0204, 0x01ad), (0x0085, 0x0228, 0x02c1),
     (0x00c8, 0x0253, 0x0363), (0x010a, 0x0282, 0x03df),
     (0x014d, 0x0177, 0x01dd), (0x019a, 0x0101, 0x0127),
     (0x029a, 0x0037, 0x002b), (0x029a, 0x0000, 0x0000)]
  | .t =>
    [(0x0040, 0x01f2, 0x01be), (0x0080, 0x0214, 0x02d1),
     (0x00c0, 0x023f, 0x037b), (0x0100, 0x0270, 0x03fe),
     (0x0138, 0x016f, 0x01fc), (0x019a, 0x00d2, 0x00fb),
     (0x029a, 0x0018, 0x0012), (0x029a, 0x0000, 0x0000)]

/-- First bracket of an ordered (K, B, M) table whose breakpoint the given
ratio does not exceed, scanning least-to-greatest. -/
def firstMatch (ratio : ℕ) : List (ℕ × ℕ × ℕ) → Option (ℕ × ℕ)
| [] => none
| e :: rest => if ratio ≤ e.1 then some (e.2.1, e.2.2) else firstMatch ratio rest

/-- Coefficient selection as the spec words it: scan the ordered bracket
table and take the first entry whose breakpoint the ratio is at most;
ratios beyond every breakpoint fall to the final catch-all entry
(B8, M8), which is (0, 0) in both packages.  Written from the spec for
comparison with selectCoeffs, which is the embedding of the if-chain in
the source. -/
def specSelect (pkg : Package) (ratio : ℕ) : ℕ × ℕ :=
  (firstMatch ratio (coeffTable pkg)).getD (0x0000, 0x0000)

/-- C2: for every (broadband, ir) pair where either value strictly exceeds
the clipping threshold selected by the current integration time,
calculateLux returns the saturation sentinel 65536. -/
theorem calculateLux_saturation (pkg : Package) (it : IntegrationTime)
    (g : Gain) (broadband ir : ℕ)
    (h : broadband > clipThreshold it ∨ ir > clipThreshold it) :
    calculateLux pkg it g broadband ir = 65536 := by
  unfold calculateLux
  rw [if_pos h]

theorem calculateLux_saturation_witness :
    ((5000 > clipThreshold IntegrationTime.it13ms ∨
        (0 : ℕ) > clipThreshold IntegrationTime.it13ms) ∧
      calculateLux Package.t IntegrationTime.it13ms Gain.gain1x 5000 0 = 65536) ∧
    65536 ≠ 0 :=
  ⟨⟨Or.inl (by decide),
    calculateLux_saturation Package.t IntegrationTime.it13ms Gain.gain1x 5000 0
      (Or.inl (by decide))⟩, by decide⟩

/-- C1: at the non-saturated input broadband = 0, ir = 100 with 402 ms
integration time and 16x gain, the scaled channels are channel0 = 0 and
channel1 = 100, the selected coefficients are (b, m) = (0x01f2, 0x01be)
with channel1 * m = 44600 > 0 = channel0 * b, yet calculateLux returns the
wrapped-around value 262141 instead of the clamped 0 the claim (and the
source comment above the dead test on the unsigned variable temp)
requires: temp is an unsigned long, so (temp < 0) is never true. -/
theorem calculateLux_wraparound_bug :
    (¬ ((0 : ℕ) > clipThreshold IntegrationTime.it402ms ∨
        (100 : ℕ) > clipThreshold IntegrationTime.it402ms)) ∧
    scaledChannel (chScaleOf IntegrationTime.it402ms Gain.gain16x) 0 = 0 ∧
    scaledChannel (chScaleOf IntegrationTime.it402ms Gain.gain16x) 100 = 100 ∧
    selectCoeffs Package.t (ratioOf 0 100) = some (0x01f2, 0x01be) ∧
    100 * 0x01be > 0 * 0x01f2 ∧
    calculateLux Package.t IntegrationTime.it402ms Gain.gain16x 0 100 = 262141 ∧
    (262141 : ℕ) ≠ 0 := by
  decide

/-- C9: in the ratio computation of calculateLux, equal nonzero scaled
channels yield exactly the fixed-point representation of 1.0, namely
2 ^ TSL2561_LUX_RATIOSCALE, and a zero channel0 yields ratio 0.  The
bound channel0 < 2 ^ 22 holds for every channel value calculateLux can
produce (non-saturated raw values scaled by at most 0x75170 and shifted
right by 10). -/
theorem ratioOf_equal_channels (c d : ℕ) (h0 : 0 < c) (h1 : c < 2 ^ 22) :
    ratioOf c c = 2 ^ TSL2561_LUX_RATIOSCALE ∧ ratioOf 0 d = 0 := by
  constructor
  · have hmod : (c <<< (TSL2561_LUX_RATIOSCALE + 1)) % U32 = c * 2 ^ 10 := by
      rw [Nat.shiftLeft_eq]
      refine Nat.mod_eq_of_lt ?_
      have h2 : c * 2 ^ 10 ≤ (2 ^ 22 - 1) * 2 ^ 10 :=
        Nat.mul_le_mul_right _ (by omega)
      calc c * 2 ^ 10 ≤ (2 ^ 22 - 1) * 2 ^ 10 := h2
        _ < U32 := by norm_num [U32]
    unfold ratioOf
    rw [if_pos (Nat.pos_iff_ne_zero.mp h0), hmod,
      Nat.mul_div_cancel_left _ h0]
    decide
  · simp only [ratioOf, ne_eq, not_true_eq_false, if_false]
    decide

theorem ratioOf_equal_channels_witness :
    0 < 7 ∧ 7 < 2 ^ 22 ∧
      (ratioOf 7 7 = 2 ^ TSL2561_LUX_RATIOSCALE ∧ ratioOf 0 5 = 0) :=
  ⟨by decide, by decide, ratioOf_equal_channels 7 5 (by decide) (by decide)⟩

/-- C8: for every ratio in [0, ∞) and both package variants, the 8-branch
if-chain of calculateLux assigns the coefficient pair (never falls
through with b and m unassigned), and the pair it assigns is the one of
the first bracket, in least-to-greatest breakpoint order, whose
breakpoint the ratio does not exceed (with the final catch-all entry for
ratios beyond every breakpoint). -/
theorem selectCoeffs_first_match (pkg : Package) (ratio : ℕ) :
    selectCoeffs pkg ratio = some (specSelect pkg ratio) := by
  cases pkg <;>
    simp only [selectCoeffs, specSelect, coeffTable, firstMatch,
      Nat.zero_le, true_and, Option.getD_some, Option.getD_none] <;>
    split_ifs <;> first | rfl | omega

/-- C5: the two repository copies of init use different device-identity
probe conditions; at ID-register value 0x0F the first copy (probe fails
when (x & 0x0A) = 0) reports success while the second copy (probe fails
when (x & 0x05) is nonzero) reports failure, so the two variants are not
behaviorally equivalent. -/
theorem init_variants_disagree :
    (init_v0 0x0F initialState).1 = true ∧
    (init_v1 0x0F initialState).1 = false := by
  decide

/-- C7: for every assumed channel ratio strictly greater than 1.30,
calculateRawCH0 returns the sentinel 0xFFFF, in both package variants,
regardless of the lux argument, the abstracted pow function, the
integration time, and the gain.  (The float comparison of the source is
exact here: no single-precision value lies strictly between the real 1.3
and the double literal 1.30, so a ratio strictly above 1.30 always takes
this branch.) -/
theorem calculateRawCH0_sentinel (pkg : Package) (powA : ℚ → ℚ → ℚ)
    (it : IntegrationTime) (g : Gain) (lux : ℕ) (r : ℚ)
    (h : r > 13 / 10) :
    calculateRawCH0 pkg powA it g lux r = 0xFFFF := by
  cases pkg <;> simp only [calculateRawCH0] <;> rw [if_pos h]

/-- C3: for every sequence of readings the transport can return, the
getLuminosity acquisition logic terminates (any loop fuel of at least 2
yields a result) with at most 3 getData calls, and with exactly one call
whenever auto-gain is disabled or the first reading triggers no gain
adjustment. -/
theorem getLuminosity_terminates (fuel : ℕ) (st : SensorState)
    (stream : Stream16) (hf : 2 ≤ fuel) :
    ∃ r st2 n, getLuminosity fuel st stream = some (r, st2, n) ∧ n ≤ 3 ∧
      ((st.autoGain = false ∨ ¬ adjustCond st (stream 0).1) → n = 1) := by
  obtain ⟨k, rfl⟩ : ∃ k, fuel = k + 2 := ⟨fuel - 2, by omega⟩
  by_cases hag : st.autoGain = false
  · exact ⟨stream 0, st, 1, by simp [getLuminosity, hag], by omega,
      fun _ => rfl⟩
  · have hrw : getLuminosity (k + 2) st stream =
        agcLoop (k + 2) false st stream 0 := by
      simp [getLuminosity, hag]
    by_cases h1 : (stream 0).1 < agcLo st.integrationTime ∧
        st.gain = Gain.gain1x
    · refine ⟨stream 2, { st with gain := Gain.gain16x }, 3, ?_, by omega, ?_⟩
      · rw [hrw]; simp [agcLoop, h1]
      · rintro (hc | hc)
        · exact absurd hc hag
        · exact absurd (Or.inl h1) hc
    · by_cases h2 : (stream 0).1 > agcHi st.integrationTime ∧
          st.gain = Gain.gain16x
      · refine ⟨stream 2, { st with gain := Gain.gain1x }, 3, ?_, by omega, ?_⟩
        · rw [hrw]; simp [agcLoop, h1, h2]
        · rintro (hc | hc)
          · exact absurd hc hag
          · exact absurd (Or.inr h2) hc
      · refine ⟨stream 0, st, 1, ?_, by omega, fun _ => rfl⟩
        rw [hrw]; simp [agcLoop, h1, h2]

theorem getLuminosity_terminates_witness :
    2 ≤ 2 ∧
    ∃ r st2 n,
      getLuminosity 2 initialState (fun _ => (0, 0)) = some (r, st2, n) ∧
        n ≤ 3 ∧
        ((initialState.autoGain = false ∨
            ¬ adjustCond initialState ((fun _ => ((0 : ℕ), (0 : ℕ))) 0).1) →
          n = 1) :=
  ⟨by omega, getLuminosity_terminates 2 initialState (fun _ => (0, 0))
    (by omega)⟩

/-- C4: with auto-gain enabled, on the first loop iteration: a broadband
reading below the low threshold at gain 1x switches the gain to 16x; a
reading above the high threshold at gain 16x switches the gain to 1x; in
every other case the first reading is accepted as final and returned
unchanged after a single getData call. -/
theorem getLuminosity_first_iteration (fuel : ℕ) (st : SensorState)
    (stream : Stream16) (hf : 2 ≤ fuel) (hag : st.autoGain = true) :
    ((stream 0).1 < agcLo st.integrationTime → st.gain = Gain.gain1x →
      ∃ r n, getLuminosity fuel st stream =
        some (r, { st with gain := Gain.gain16x }, n)) ∧
    (agcHi st.integrationTime < (stream 0).1 → st.gain = Gain.gain16x →
      ∃ r n, getLuminosity fuel st stream =
        some (r, { st with gain := Gain.gain1x }, n)) ∧
    (¬ adjustCond st (stream 0).1 →
      getLuminosity fuel st stream = some (stream 0, st, 1)) := by
  obtain ⟨k, rfl⟩ : ∃ k, fuel = k + 2 := ⟨fuel - 2, by omega⟩
  have hrw : getLuminosity (k + 2) st stream =
      agcLoop (k + 2) false st stream 0 := by
    simp [getLuminosity, hag]
  refine ⟨?_, ?_, ?_⟩
  · intro hlo hg
    exact ⟨stream 2, 3, by rw [hrw]; simp [agcLoop, hlo, hg]⟩
  · intro hhi hg
    have hne : ¬ ((stream 0).1 < agcLo st.integrationTime ∧
        st.gain = Gain.gain1x) := by
      rintro ⟨-, h⟩; rw [hg] at h; cases h
    exact ⟨stream 2, 3, by rw [hrw]; simp [agcLoop, hne, hhi, hg]⟩
  · intro hno
    have h1 : ¬ ((stream 0).1 < agcLo st.integrationTime ∧
        st.gain = Gain.gain1x) := fun h => hno (Or.inl h)
    have h2 : ¬ (agcHi st.integrationTime < (stream 0).1 ∧
        st.gain = Gain.gain16x) := fun h => hno (Or.inr h)
    rw [hrw]; simp [agcLoop, h1, h2]

theorem getLuminosity_first_iteration_witness :
    (({ initialState with autoGain := true } : SensorState).autoGain = true)
    ∧ ∃ r n,
      getLuminosity 2 { initialState with autoGain := true }
          (fun i => if i = 0 then (50, 0) else (700, 100)) =
        some (r, { { initialState with autoGain := true } with
          gain := Gain.gain16x }, n) :=
  ⟨rfl,
    (getLuminosity_first_iteration 2 { initialState with autoGain := true }
      (fun i => if i = 0 then (50, 0) else (700, 100)) (by omega) rfl).1
      (by decide) rfl⟩

/-- C10: with auto-gain enabled, when the first reading triggers a gain
adjustment, the reading taken right after the gain write (the second
acquisition) is discarded: the accepted result is the third acquisition
(stream index 2), taken on the following loop iteration, and exactly 3
getData calls are performed. -/
theorem getLuminosity_adjusted_returns_third (fuel : ℕ) (st : SensorState)
    (stream : Stream16) (hf : 2 ≤ fuel) (hag : st.autoGain = true)
    (hadj : adjustCond st (stream 0).1) :
    ∃ st2, getLuminosity fuel st stream = some (stream 2, st2, 3) := by
  obtain ⟨k, rfl⟩ : ∃ k, fuel = k + 2 := ⟨fuel - 2, by omega⟩
  have hrw : getLuminosity (k + 2) st stream =
      agcLoop (k + 2) false st stream 0 := by
    simp [getLuminosity, hag]
  rcases hadj with h1 | h1
  · exact ⟨{ st with gain := Gain.gain16x }, by rw [hrw]; simp [agcLoop, h1]⟩
  · have hne : ¬ ((stream 0).1 < agcLo st.integrationTime ∧
        st.gain = Gain.gain1x) := by
      rintro ⟨-, h⟩; rw [h1.2] at h; cases h
    exact ⟨{ st with gain := Gain.gain1x },
      by rw [hrw]; simp [agcLoop, hne, h1]⟩

theorem getLuminosity_adjusted_returns_third_witness :
    adjustCond { initialState with autoGain := true } 50 ∧
    ∃ st2,
      getLuminosity 2 { initialState with autoGain := true }
          (fun i => if i = 0 then (50, 7) else (900, 100)) =
        some ((900, 100), st2, 3) :=
  ⟨by decide,
    getLuminosity_adjusted_returns_third 2
      { initialState with autoGain := true }
      (fun i => if i = 0 then (50, 7) else (900, 100)) (by omega) rfl
      (by decide)⟩

/-- C6 counterexample: the claim that each of setIntegrationTime, setGain
and enableAutoRange first performs initialization when the sensor is not
initialized fails for enableAutoRange: on the freshly constructed
(uninitialized) state, enableAutoRange takes effect (the auto-gain flag
is set) without any begin call. -/
theorem enableAutoRange_no_begin :
    initialState.initialized = false ∧
    (enableAutoRange initialState true).2 = false ∧
    (enableAutoRange initialState true).1.autoGain = true := by
  decide

/-- C6 (amended): when the sensor is not initialized, setIntegrationTime
and setGain first call begin before taking effect, while enableAutoRange
never calls begin — it only stores the auto-gain flag, which still takes
effect. -/
theorem setters_begin_behavior (idByte : ℕ) (st : SensorState)
    (time : IntegrationTime) (g : Gain) (en : Bool)
    (h : st.initialized = false) :
    (setIntegrationTime idByte st time).2 = true ∧
    ((setIntegrationTime idByte st time).1.integrationTime = time) ∧
    (setGain idByte st g).2 = true ∧
    ((setGain idByte st g).1.gain = g) ∧
    (enableAutoRange st en).2 = false ∧
    ((enableAutoRange st en).1.autoGain = en) := by
  simp [setIntegrationTime, setGain, enableAutoRange, h]

theorem setters_begin_behavior_witness :
    initialState.initialized = false ∧
    ((setIntegrationTime 0x50 initialState IntegrationTime.it101ms).2 = true ∧
      ((setIntegrationTime 0x50 initialState
          IntegrationTime.it101ms).1.integrationTime =
        IntegrationTime.it101ms) ∧
      (setGain 0x50 initialState Gain.gain16x).2 = true ∧
      ((setGain 0x50 initialState Gain.gain16x).1.gain = Gain.gain16x) ∧
      (enableAutoRange initialState true).2 = false ∧
      ((enableAutoRange initialState true).1.autoGain = true)) :=
  ⟨rfl, setters_begin_behavior 0x50 initialState IntegrationTime.it101ms
    Gain.gain16x true rfl⟩

theorem calculateRawCH0_sentinel_witness :
    ((3 : ℚ) / 2 > 13 / 10) ∧
    calculateRawCH0 Package.cs (fun _ _ => 0) IntegrationTime.it402ms
      Gain.gain1x 400 (3 / 2) = 0xFFFF :=
  ⟨by norm_num,
    calculateRawCH0_sentinel Package.cs (fun _ _ => 0)
      IntegrationTime.it402ms Gain.gain1x 400 (3 / 2) (by norm_num)⟩

end TSL2561
